import Mathlib

/-!
Verification development for the Chicago open-data analysis repository.

The repository has two programs sharing one SQLite database (FinalDB.db):

* `chicago_data_analysis.py` — the Report Runner: loads three CSV datasets
  into the tables CENSUS_DATA, CHICAGO_PUBLIC_SCHOOLS and CHICAGO_CRIME_DATA
  and executes ten fixed analytical queries (`run_analysis`), each wrapped in
  `execute_query`.  The wrapper's `except Error` clause catches only
  `sqlite3.Error`; `pd.read_sql_query` wraps execution failures (malformed
  SQL, missing table) in `pandas.errors.DatabaseError`, an `OSError` subclass
  that `sqlite3.Error` does not cover, so such a failure propagates out of
  `execute_query` and aborts the remaining queries.  The exception hierarchy
  is modelled by `PyExc` and the abort-on-uncaught-exception control flow by
  `runQueriesAux`.
* `chicago_bi_dashboard.py` — the BI dashboard: builds two derived datasets
  (`load_socioeducation_dataset`, `load_crime_dataset`) via SQL joins executed
  through `run_query` (which catches database errors and yields an empty
  frame), then segments crime records by income and ranks crime types by
  frequency (`render_crime_hotspots_tab`).

The embedding below models SQLite tables as lists of typed rows whose columns
are `Option ℚ` (numeric-or-null) and `Option String` (text-or-null), a storage
state in which whole tables may be absent, and each SQL query as a Lean
function on that state.  SQLite specifics that matter here are modelled
explicitly: `CAST(x AS INTEGER)` truncates toward zero and maps NULL to NULL,
`=` comparisons involving NULL are not satisfied, `LIKE` is case-insensitive,
aggregate AVG ignores NULLs and is NULL on an empty set, COUNT(col) counts
non-NULL values, and text ordering is byte-wise (BINARY collation).
-/

set_option maxHeartbeats 1000000
set_option maxRecDepth 8000
set_option linter.unusedVariables false

namespace Chicago

/-- SQLite value as it appears in a result row of the Report Runner. -/
inductive SVal where
  | null : SVal
  | num : ℚ → SVal
  | str : String → SVal
deriving DecidableEq

/-- Row of the CENSUS_DATA table (columns used by the two programs). -/
structure CensusRow where
  community_area_number : Option ℚ
  community_area_name : Option String
  hardship_index : Option ℚ
  percent_households_below_poverty : Option ℚ
  per_capita_income : Option ℚ
deriving DecidableEq

/-- Row of the CHICAGO_PUBLIC_SCHOOLS table (columns used by the two programs).
The `school_type` field embeds the column named
"Elementary, Middle, or High School". -/
structure SchoolRow where
  school_id : Option ℚ
  community_area_number : Option ℚ
  safety_score : Option ℚ
  school_type : Option String
deriving DecidableEq

/-- Row of the CHICAGO_CRIME_DATA table (columns used by the two programs). -/
structure CrimeRow where
  id : Option ℚ
  case_number : Option String
  primary_type : Option String
  description : Option String
  location_description : Option String
  community_area_number : Option ℚ
  year : Option ℚ
deriving DecidableEq

/-- Contents of FinalDB.db.  A table is `none` when it is absent from the
database file (querying it raises, which `run_query`/`execute_query` catch). -/
structure Storage where
  census : Option (List CensusRow)
  schools : Option (List SchoolRow)
  crime : Option (List CrimeRow)

/-- SQLite CAST(q AS INTEGER) on a REAL value: truncation toward zero. -/
def truncToInt (q : ℚ) : ℤ := Int.tdiv q.num q.den

/-- SQLite CAST(x AS INTEGER) on a nullable numeric column: NULL stays NULL. -/
def castIntQ : Option ℚ → Option ℤ
  | none => none
  | some q => some (truncToInt q)

/-- SQLite TRIM: strip leading and trailing space characters. -/
def sqlTrim (s : String) : String :=
  ⟨((s.data.dropWhile (fun c => c = ' ')).reverse.dropWhile (fun c => c = ' ')).reverse⟩

/-- Distinct values of a list, keeping the first occurrence of each value;
`seen` accumulates values already emitted. -/
def dedupFirstAux [DecidableEq α] (seen : List α) : List α → List α
  | [] => []
  | x :: xs => if x ∈ seen then dedupFirstAux seen xs else x :: dedupFirstAux (x :: seen) xs

/-- Distinct values of a list in first-occurrence order (SQL DISTINCT /
grouping-key extraction). -/
def dedupFirst [DecidableEq α] (l : List α) : List α := dedupFirstAux [] l

/-- Insert `x` in front of the first element `y` with `le x y`; used by
`insertionSort`.  With a total `le` this produces stable sorted output. -/
def insertSorted (le : α → α → Bool) (x : α) : List α → List α
  | [] => [x]
  | y :: ys => if le x y then x :: y :: ys else y :: insertSorted le x ys

/-- Stable insertion sort; models the deterministic row order produced by the
single-threaded SQLite/pandas pipeline for ORDER BY and sort_values. -/
def insertionSort (le : α → α → Bool) : List α → List α
  | [] => []
  | x :: xs => insertSorted le x (insertionSort le xs)

/-- Byte-wise lexicographic strict order on character lists. -/
def strLtChars : List Char → List Char → Bool
  | [], [] => false
  | [], _ :: _ => true
  | _ :: _, [] => false
  | a :: as, b :: bs =>
    if a.toNat < b.toNat then true
    else if b.toNat < a.toNat then false
    else strLtChars as bs

/-- Byte-wise lexicographic order on character lists (BINARY collation). -/
def strLeChars : List Char → List Char → Bool
  | [], _ => true
  | _ :: _, [] => false
  | a :: as, b :: bs =>
    if a.toNat < b.toNat then true
    else if b.toNat < a.toNat then false
    else strLeChars as bs

/-- String order used by SQLite ORDER BY on text and by pandas groupby keys. -/
def strLeB (a b : String) : Bool := strLeChars a.data b.data

/-- Strict version of `strLeB`. -/
def strLtB (a b : String) : Bool := strLtChars a.data b.data

/-- ASCII upper-casing of a character code (SQLite LIKE folds only ASCII). -/
def upNat (n : ℕ) : ℕ := if 97 ≤ n ∧ n ≤ 122 then n - 32 else n

/-- Does the character list start with `needle`, comparing case-insensitively? -/
def charsHasPreCI : List Char → List Char → Bool
  | [], _ => true
  | _ :: _, [] => false
  | a :: as, b :: bs => (upNat a.toNat = upNat b.toNat) && charsHasPreCI as bs

/-- Does the character list contain `needle` as a contiguous case-insensitive
run anywhere? -/
def charsContainsCI (needle : List Char) : List Char → Bool
  | [] => needle.isEmpty
  | c :: rest => charsHasPreCI needle (c :: rest) || charsContainsCI needle rest

/-- SQLite `col LIKE '%pat%'`: case-insensitive substring test, NULL input
yields no match. -/
def likeContains (o : Option String) (pat : String) : Bool :=
  match o with
  | none => false
  | some s => charsContainsCI pat.data s.data

/-- Ascending order on nullable numbers: SQLite sorts NULLs first. -/
def optQLe (a b : Option ℚ) : Bool :=
  match a, b with
  | none, _ => true
  | some _, none => false
  | some x, some y => decide (x ≤ y)

/-- Ascending order on nullable text: SQLite sorts NULLs first. -/
def optStrLe (a b : Option String) : Bool :=
  match a, b with
  | none, _ => true
  | some _, none => false
  | some x, some y => strLeB x y

/-- Render a nullable number as a result value. -/
def optNumVal : Option ℚ → SVal
  | none => SVal.null
  | some q => SVal.num q

/-- Render a nullable string as a result value. -/
def optStrVal : Option String → SVal
  | none => SVal.null
  | some s => SVal.str s

/-! ### Report Runner: the ten fixed queries of `run_analysis`

Each query is a function of the storage state; it fails when a referenced
table is absent.  `pd.read_sql_query` wraps any execution failure in
`pandas.errors.DatabaseError`, so every query error carries that exception
class. -/

/-- Python exception classes relevant to `execute_query`:
`sqlite3.Error` (the only class its `except Error` clause catches) and
`pandas.errors.DatabaseError` (an `OSError` subclass raised by
`pd.read_sql_query`, which `except Error` does not catch). -/
inductive PyExc where
  | sqlite3Error : String → PyExc
  | databaseError : String → PyExc
deriving DecidableEq

/-- Problem 1: `SELECT COUNT(*) FROM CHICAGO_CRIME_DATA`. -/
def query1 (st : Storage) : Except PyExc (List (List SVal)) :=
  match st.crime with
  | none => .error (PyExc.databaseError "no such table: CHICAGO_CRIME_DATA")
  | some ct => .ok [[SVal.num (ct.length : ℚ)]]

/-- Problem 2: community areas with `PER_CAPITA_INCOME < 11000`, ordered by
income descending. -/
def query2 (st : Storage) : Except PyExc (List (List SVal)) :=
  match st.census with
  | none => .error (PyExc.databaseError "no such table: CENSUS_DATA")
  | some cs =>
    .ok ((insertionSort (fun a b => optQLe b.per_capita_income a.per_capita_income)
        (cs.filter (fun r =>
          match r.per_capita_income with
          | some q => decide (q < 11000)
          | none => false))).map (fun r =>
        [optNumVal r.community_area_number, optStrVal r.community_area_name,
         optNumVal r.per_capita_income]))

/-- Problem 3: `SELECT DISTINCT CASE_NUMBER ... WHERE DESCRIPTION LIKE
'%MINOR%' ORDER BY CASE_NUMBER`. -/
def query3 (st : Storage) : Except PyExc (List (List SVal)) :=
  match st.crime with
  | none => .error (PyExc.databaseError "no such table: CHICAGO_CRIME_DATA")
  | some ct =>
    .ok ((insertionSort optStrLe
        (dedupFirst ((ct.filter (fun r => likeContains r.description "MINOR")).map
          (fun r => r.case_number)))).map (fun v => [optStrVal v]))

/-- Problem 4: kidnapping crimes involving a child, ordered by case number. -/
def query4 (st : Storage) : Except PyExc (List (List SVal)) :=
  match st.crime with
  | none => .error (PyExc.databaseError "no such table: CHICAGO_CRIME_DATA")
  | some ct =>
    .ok ((insertionSort (fun a b => optStrLe a.case_number b.case_number)
        (ct.filter (fun r =>
          (match r.primary_type with
           | some t => decide (t = "KIDNAPPING")
           | none => false)
          && likeContains r.description "CHILD"))).map (fun r =>
        [optStrVal r.case_number, optNumVal r.id, optStrVal r.description]))

/-- Problem 5: `SELECT DISTINCT PRIMARY_TYPE ... WHERE LOCATION_DESCRIPTION
LIKE '%SCHOOL%' ORDER BY PRIMARY_TYPE`. -/
def query5 (st : Storage) : Except PyExc (List (List SVal)) :=
  match st.crime with
  | none => .error (PyExc.databaseError "no such table: CHICAGO_CRIME_DATA")
  | some ct =>
    .ok ((insertionSort optStrLe
        (dedupFirst ((ct.filter (fun r => likeContains r.location_description "SCHOOL")).map
          (fun r => r.primary_type)))).map (fun v => [optStrVal v]))

/-- Problem 6: school type with average safety score over non-NULL scores,
ordered by the average descending. -/
def query6 (st : Storage) : Except PyExc (List (List SVal)) :=
  match st.schools with
  | none => .error (PyExc.databaseError "no such table: CHICAGO_PUBLIC_SCHOOLS")
  | some ss =>
    .ok ((insertionSort (fun a b => decide (b.2 ≤ a.2))
        ((dedupFirst ((ss.filter (fun s => s.safety_score.isSome)).map
            (fun s => s.school_type))).map (fun k =>
          (k, (((ss.filter (fun s => s.safety_score.isSome)).filter
                  (fun s => decide (s.school_type = k))).filterMap
                (fun s => s.safety_score)).sum /
              ((((ss.filter (fun s => s.safety_score.isSome)).filter
                  (fun s => decide (s.school_type = k))).filterMap
                (fun s => s.safety_score)).length : ℚ))))).map (fun p =>
        [optStrVal p.1, SVal.num p.2]))

/-- Problem 7: top 5 community areas by poverty percentage (descending; SQLite
places NULLs last in a descending sort). -/
def query7 (st : Storage) : Except PyExc (List (List SVal)) :=
  match st.census with
  | none => .error (PyExc.databaseError "no such table: CENSUS_DATA")
  | some cs =>
    .ok (((insertionSort (fun a b =>
          optQLe b.percent_households_below_poverty a.percent_households_below_poverty)
        cs).take 5).map (fun r =>
        [optNumVal r.community_area_number, optStrVal r.community_area_name,
         optNumVal r.percent_households_below_poverty]))

/-- Grouped crime counts per non-NULL COMMUNITY_AREA_NUMBER, ordered by count
descending.  This is the shared body of the Problem 8 query and of the scalar
subquery inside Problem 10 (the SQL text is identical in both). -/
def crimeAreaCounts (ct : List CrimeRow) : List (ℚ × ℕ) :=
  insertionSort (fun a b => decide (b.2 ≤ a.2))
    ((dedupFirst (ct.filterMap (fun r => r.community_area_number))).map
      (fun k => (k, (ct.filterMap (fun r => r.community_area_number)).count k)))

/-- Problem 8: single most crime-prone community area number with its count. -/
def query8 (st : Storage) : Except PyExc (List (List SVal)) :=
  match st.crime with
  | none => .error (PyExc.databaseError "no such table: CHICAGO_CRIME_DATA")
  | some ct =>
    .ok (((crimeAreaCounts ct).take 1).map (fun p =>
      [SVal.num p.1, SVal.num (p.2 : ℚ)]))

/-- Problem 9: community names whose HARDSHIP_INDEX equals the maximum
hardship index (scalar subquery; if the subquery is NULL, no row matches). -/
def query9 (st : Storage) : Except PyExc (List (List SVal)) :=
  match st.census with
  | none => .error (PyExc.databaseError "no such table: CENSUS_DATA")
  | some cs =>
    .ok (match cs.filterMap (fun r => r.hardship_index) with
      | [] => []
      | h :: t =>
        (cs.filter (fun r => decide (r.hardship_index = some (t.foldr max h)))).map
          (fun r => [optStrVal r.community_area_name]))

/-- Problem 10: community names whose COMMUNITY_AREA_NUMBER equals the most
crime-prone area number computed by the scalar subquery (same grouping as
Problem 8); a NULL subquery result matches no row. -/
def query10 (st : Storage) : Except PyExc (List (List SVal)) :=
  match st.census, st.crime with
  | none, _ => .error (PyExc.databaseError "no such table: CENSUS_DATA")
  | some _, none => .error (PyExc.databaseError "no such table: CHICAGO_CRIME_DATA")
  | some cs, some ct =>
    .ok (match (crimeAreaCounts ct).take 1 with
      | [] => []
      | p :: _ =>
        (cs.filter (fun r => decide (r.community_area_number = some p.1))).map
          (fun r => [optStrVal r.community_area_name]))

/-- The fixed battery of ten queries run by `run_analysis`, in order. -/
def allQueries : List (Storage → Except PyExc (List (List SVal))) :=
  [query1, query2, query3, query4, query5, query6, query7, query8, query9, query10]

/-- The `execute_query` method: run one query inside
`try ... except Error as e: ... return None`.  The clause catches only
`sqlite3.Error`, so a `pandas.errors.DatabaseError` raised by
`pd.read_sql_query` is not caught and propagates to the caller
(`Except.error`); only a `sqlite3.Error` would be reported as `None`. -/
def execute_query (q : Storage → Except PyExc (List (List SVal)))
    (st : Storage) : Except PyExc (Option (List (List SVal))) :=
  match q st with
  | .ok r => .ok (some r)
  | .error (PyExc.sqlite3Error _) => .ok none
  | .error (PyExc.databaseError msg) => .error (PyExc.databaseError msg)

/-- Sequential execution of the query battery: each query runs through
`execute_query`, and an exception that `execute_query` does not catch aborts
the run, so no later query executes. -/
def runQueriesAux (st : Storage) :
    List (Storage → Except PyExc (List (List SVal))) →
      Except PyExc (List (Option (List (List SVal))))
  | [] => .ok []
  | q :: qs =>
    match execute_query q st with
    | .error e => .error e
    | .ok r =>
      match runQueriesAux st qs with
      | .error e => .error e
      | .ok rs => .ok (r :: rs)

/-- The `run_analysis` method: execute the ten queries in order; a result is
produced for every query only if no uncaught exception interrupts the
sequence. -/
def run_analysis (st : Storage) : Except PyExc (List (Option (List (List SVal)))) :=
  runQueriesAux st allQueries

/-! ### Dashboard View Builder: `load_socioeducation_dataset`

The SQL: census LEFT JOIN schools on integer-cast community number, filtered
to non-NULL community number and non-blank community name, grouped by
(CAST(number), name, hardship, poverty), with AVG over non-NULL safety scores
and COUNT(School_ID), ordered by community number ascending. -/

/-- Grouping key of `load_socioeducation_dataset`: integer-cast community
number, raw name, hardship index, poverty rate. -/
abbrev AggKey := ℤ × String × Option ℚ × Option ℚ

/-- WHERE clause and grouping key of a census row: `none` when the row is
filtered out (NULL community number, or name whose COALESCE to the empty
string trims to blank). -/
def censusKey (c : CensusRow) : Option AggKey :=
  match c.community_area_number with
  | none => none
  | some q =>
    if sqlTrim ((c.community_area_name).getD "") = "" then none
    else some (truncToInt q, (c.community_area_name).getD "",
               c.hardship_index, c.percent_households_below_poverty)

/-- Schools matching one side of the join condition
`CAST(s.COMMUNITY_AREA_NUMBER AS INTEGER) = i` (NULL never matches). -/
def schoolMatches (ss : List SchoolRow) (i : ℤ) : List SchoolRow :=
  ss.filter (fun s => decide (castIntQ s.community_area_number = some i))

/-- LEFT JOIN contribution of one census row: dropped if filtered, one
NULL-extended row if no school matches, otherwise one row per matching
school. -/
def censusJoin (ss : List SchoolRow) (c : CensusRow) : List (AggKey × Option SchoolRow) :=
  match censusKey c with
  | none => []
  | some k =>
    match schoolMatches ss k.1 with
    | [] => [(k, none)]
    | s :: rest => (s :: rest).map (fun t => (k, some t))

/-- The joined (census LEFT JOIN schools) relation before grouping. -/
def joinedRows (cs : List CensusRow) (ss : List SchoolRow) :
    List (AggKey × Option SchoolRow) :=
  cs.flatMap (censusJoin ss)

/-- Rows of the joined relation belonging to one grouping key. -/
def groupMembers (J : List (AggKey × Option SchoolRow)) (k : AggKey) :
    List (AggKey × Option SchoolRow) :=
  J.filter (fun p => decide (p.1 = k))

/-- Values contributing to `AVG(CASE WHEN s.SAFETY_SCORE IS NOT NULL THEN
s.SAFETY_SCORE END)` in one group: the non-NULL safety scores. -/
def groupScores (J : List (AggKey × Option SchoolRow)) (k : AggKey) : List ℚ :=
  (groupMembers J k).filterMap (fun p =>
    match p.2 with
    | some s => s.safety_score
    | none => none)

/-- `COUNT(s.School_ID)` in one group: joined rows carrying a school with a
non-NULL School_ID. -/
def groupSchoolCount (J : List (AggKey × Option SchoolRow)) (k : AggKey) : ℕ :=
  (groupMembers J k).countP (fun p =>
    match p.2 with
    | some s => s.school_id.isSome
    | none => false)

/-- One output row of the community aggregate dataset. -/
structure AggRow where
  community_area_number : ℤ
  community_area_name : String
  hardship_index : Option ℚ
  poverty_rate : Option ℚ
  avg_safety_score : Option ℚ
  school_count : ℕ
deriving DecidableEq

/-- Build the aggregate row of one grouping key: AVG is NULL when no non-NULL
safety score contributes, otherwise the arithmetic mean. -/
def mkAggRow (J : List (AggKey × Option SchoolRow)) (k : AggKey) : AggRow :=
  { community_area_number := k.1
    community_area_name := k.2.1
    hardship_index := k.2.2.1
    poverty_rate := k.2.2.2
    avg_safety_score :=
      match groupScores J k with
      | [] => none
      | q :: rest => some ((q :: rest).sum / (((q :: rest).length : ℚ)))
    school_count := groupSchoolCount J k }

/-- Grouping keys of the joined relation, ordered by community number
ascending (the final ORDER BY). -/
def socioKeys (cs : List CensusRow) (ss : List SchoolRow) : List AggKey :=
  insertionSort (fun a b => decide (a.1 ≤ b.1))
    (dedupFirst ((joinedRows cs ss).map Prod.fst))

/-- Result rows of the `load_socioeducation_dataset` SQL (the community
aggregate view); the subsequent pandas `to_numeric` coercion is the identity
on these typed columns. -/
def socioeducationRows (cs : List CensusRow) (ss : List SchoolRow) : List AggRow :=
  (socioKeys cs ss).map (mkAggRow (joinedRows cs ss))

/-- The dashboard `run_query` applied to the socio-education SQL: a caught
database error (absent table) yields `none`, the model of the empty,
column-less DataFrame. -/
def run_query_socio (st : Storage) : Option (List AggRow) :=
  match st.census, st.schools with
  | some cs, some ss => some (socioeducationRows cs ss)
  | _, _ => none

/-- `load_socioeducation_dataset`: on a successful query the numeric coercion
is the identity; on a caught failure the coercion reads the missing column
of the empty frame, which raises a KeyError to the caller. -/
def load_socioeducation_dataset (st : Storage) : Except String (List AggRow) :=
  match run_query_socio st with
  | some rows => .ok rows
  | none => .error "KeyError: community_area_number"

/-! ### Dashboard View Builder: `load_crime_dataset`

The SQL: crime LEFT JOIN census on integer-cast community number, keeping all
crime rows with non-NULL community number, with COALESCE sentinels for the
categorical fields. -/

/-- One output row of the enriched crime dataset. -/
structure EnrichedRow where
  crime_id : Option ℚ
  case_number : String
  primary_type : String
  description : String
  community_area_number : ℤ
  community_area_name : String
  per_capita_income : Option ℚ
  poverty_rate : Option ℚ
  hardship_index : Option ℚ
  crime_year : Option ℚ
deriving DecidableEq

/-- Census rows matching the join condition
`CAST(c.COMMUNITY_AREA_NUMBER AS INTEGER) = i` (NULL never matches). -/
def censusMatches (cs : List CensusRow) (i : ℤ) : List CensusRow :=
  cs.filter (fun c => decide (castIntQ c.community_area_number = some i))

/-- LEFT JOIN contribution of one crime row: dropped when the raw community
number is NULL (hard filter), one row with NULL enrichment and the "Unknown"
community-name sentinel when no census row matches (soft join), otherwise one
row per matching census row, with COALESCE sentinels throughout. -/
def enrichRow (cs : List CensusRow) (r : CrimeRow) : List EnrichedRow :=
  match r.community_area_number with
  | none => []
  | some q =>
    match censusMatches cs (truncToInt q) with
    | [] =>
      [{ crime_id := r.id
         case_number := r.case_number.getD "N/A"
         primary_type := r.primary_type.getD "UNKNOWN"
         description := r.description.getD "No description"
         community_area_number := truncToInt q
         community_area_name := "Unknown"
         per_capita_income := none
         poverty_rate := none
         hardship_index := none
         crime_year := r.year }]
    | c :: rest =>
      (c :: rest).map (fun c =>
        { crime_id := r.id
          case_number := r.case_number.getD "N/A"
          primary_type := r.primary_type.getD "UNKNOWN"
          description := r.description.getD "No description"
          community_area_number := truncToInt q
          community_area_name := (c.community_area_name).getD "Unknown"
          per_capita_income := c.per_capita_income
          poverty_rate := c.percent_households_below_poverty
          hardship_index := c.hardship_index
          crime_year := r.year })

/-- Result rows of the `load_crime_dataset` SQL (the enriched crime view);
the subsequent pandas `to_numeric` coercion is the identity on these typed
columns. -/
def crimeDatasetRows (cs : List CensusRow) (ct : List CrimeRow) : List EnrichedRow :=
  ct.flatMap (enrichRow cs)

/-- The dashboard `run_query` applied to the crime SQL. -/
def run_query_crime (st : Storage) : Option (List EnrichedRow) :=
  match st.crime, st.census with
  | some ct, some cs => some (crimeDatasetRows cs ct)
  | _, _ => none

/-- `load_crime_dataset`: same failure shape as
`load_socioeducation_dataset`. -/
def load_crime_dataset (st : Storage) : Except String (List EnrichedRow) :=
  match run_query_crime st with
  | some rows => .ok rows
  | none => .error "KeyError: community_area_number"

/-! ### Segmentation and ranking (`render_crime_hotspots_tab`) -/

/-- Income segment labels assigned by the nested `np.where` over
`per_capita_income` and the slider threshold. -/
def income_segment (pci : Option ℚ) (threshold : ℤ) : String :=
  match pci with
  | none => "Unknown / Missing Income"
  | some q => if q ≤ (threshold : ℚ) then "Low Income Areas" else "High Income Areas"

/-- Descending-by-count order used on per-type totals. -/
def cntDescLe (a b : String × ℕ) : Bool := decide (b.2 ≤ a.2)

/-- Top-n most frequent values of a key column, as computed by the dashboard:
pandas groupby produces the distinct values sorted ascending (byte-wise), the
per-(segment, type) group sizes summed per type give each value its total
count, and `sort_values(ascending=False).head(n)` keeps the n largest under a
stable descending sort. -/
def topNByFrequency (vals : List String) (n : ℕ) : List String :=
  ((insertionSort cntDescLe
      ((insertionSort strLeB (dedupFirst vals)).map
        (fun t => (t, vals.count t)))).take n).map Prod.fst

/-- Grouping-key view of an aggregate row (inverse of `mkAggRow` on the key
fields). -/
def rowKey (r : AggRow) : AggKey :=
  (r.community_area_number, r.community_area_name, r.hardship_index, r.poverty_rate)

/-! ### Concrete database states and rows used to instantiate the theorems -/

/-- Storage whose CHICAGO_CRIME_DATA table is absent. -/
def dbNoCrime : Storage := ⟨some [], some [], none⟩

/-- Storage with all three tables present but empty. -/
def dbEmptyTables : Storage := ⟨some [], some [], some []⟩

/-- Storage whose CENSUS_DATA table is absent. -/
def dbNoCensus : Storage := ⟨none, some [], some []⟩

/-- A census row for community 1 named "A" with no numeric indicators. -/
def censusA : CensusRow := ⟨some 1, some "A", none, none, none⟩

/-- A school in community 1 with safety score 50 but a NULL School_ID. -/
def schoolNullId : SchoolRow := ⟨none, some 1, some 50, none⟩

/-- A school in community 1 with safety score 50 and School_ID 7. -/
def schoolSeven : SchoolRow := ⟨some 7, some 1, some 50, none⟩

/-- Two census rows sharing community number 1 under different names. -/
def censusDupId : List CensusRow :=
  [⟨some 1, some "A", none, none, none⟩, ⟨some 1, some "B", none, none, none⟩]

/-- A census row for community 2 named "B" with no numeric indicators. -/
def censusB2 : CensusRow := ⟨some 2, some "B", none, none, none⟩

/-- A census row for community 2 that shares the name "A" with `censusA`. -/
def censusA2 : CensusRow := ⟨some 2, some "A", none, none, none⟩

/-- Two census rows with identical descriptive fields but distinct ids. -/
def censusSameName : List CensusRow := [censusA2, censusA]

/-- Two census rows with distinct community numbers, given out of order. -/
def censusTwo : List CensusRow := [censusB2, censusA]

/-- A census row for community 1 with per-capita income 9000. -/
def censusIncome : CensusRow := ⟨some 1, some "Oak", none, none, some 9000⟩

/-- A crime record in community 1 with all categorical fields NULL. -/
def crimeOne : CrimeRow := ⟨some 100, none, none, none, none, some 1, some 2021⟩

/-- A crime record in community 5 with all categorical fields NULL. -/
def crimeFive : CrimeRow := ⟨some 100, none, none, none, none, some 5, some 2021⟩

/-- Census rows for communities 5 and 6. -/
def censusXY : List CensusRow :=
  [⟨some 5, some "X", none, none, none⟩, ⟨some 6, some "Y", none, none, none⟩]

/-- Storage for the Problem 8 / Problem 10 consistency witness. -/
def dbC10 : Storage := ⟨some censusXY, some [], some [crimeFive]⟩

/-- The enriched row produced for `crimeOne` joined against `censusIncome`. -/
def rowIncome : EnrichedRow :=
  ⟨some 100, "N/A", "UNKNOWN", "No description", 1, "Oak", some 9000, none, none, some 2021⟩

/-! ### Library lemmas about the deduplication and sorting helpers -/

theorem mem_dedupFirstAux [DecidableEq α] (a : α) (l : List α) :
    ∀ seen, a ∈ dedupFirstAux seen l ↔ a ∈ l ∧ a ∉ seen := by
  induction l with
  | nil => intro seen; simp [dedupFirstAux]
  | cons x xs ih =>
    intro seen
    by_cases hx : x ∈ seen
    · rw [dedupFirstAux, if_pos hx, ih]
      constructor
      · rintro ⟨h1, h2⟩; exact ⟨List.mem_cons_of_mem x h1, h2⟩
      · rintro ⟨h1, h2⟩
        rcases List.mem_cons.mp h1 with rfl | h1
        · exact absurd hx h2
        · exact ⟨h1, h2⟩
    · rw [dedupFirstAux, if_neg hx]
      constructor
      · intro h
        rcases List.mem_cons.mp h with rfl | h
        · exact ⟨List.mem_cons_self a xs, hx⟩
        · have := (ih (x :: seen)).mp h
          refine ⟨List.mem_cons_of_mem x this.1, fun hm => this.2 (List.mem_cons_of_mem x hm)⟩
      · rintro ⟨h1, h2⟩
        rcases List.mem_cons.mp h1 with rfl | h1
        · exact List.mem_cons_self a _
        · by_cases hax : a = x
          · exact hax ▸ List.mem_cons_self x _
          · exact List.mem_cons_of_mem x
              ((ih (x :: seen)).mpr ⟨h1, by simp [hax, h2]⟩)

theorem mem_dedupFirst [DecidableEq α] (a : α) (l : List α) :
    a ∈ dedupFirst l ↔ a ∈ l := by
  rw [dedupFirst, mem_dedupFirstAux]; simp

theorem nodup_dedupFirstAux [DecidableEq α] (l : List α) :
    ∀ seen, (dedupFirstAux seen l).Nodup := by
  induction l with
  | nil => intro seen; simp [dedupFirstAux]
  | cons x xs ih =>
    intro seen
    by_cases hx : x ∈ seen
    · rw [dedupFirstAux, if_pos hx]; exact ih seen
    · rw [dedupFirstAux, if_neg hx]
      refine List.nodup_cons.mpr ⟨fun hm => ?_, ih (x :: seen)⟩
      exact ((mem_dedupFirstAux x xs (x :: seen)).mp hm).2 (List.mem_cons_self x seen)

theorem nodup_dedupFirst [DecidableEq α] (l : List α) : (dedupFirst l).Nodup :=
  nodup_dedupFirstAux l []

theorem perm_insertSorted (le : α → α → Bool) (x : α) (l : List α) :
    (insertSorted le x l).Perm (x :: l) := by
  induction l with
  | nil => simp [insertSorted]
  | cons y ys ih =>
    rw [insertSorted]
    by_cases h : le x y
    · rw [if_pos h]
    · rw [if_neg h]
      exact (ih.cons y).trans (List.Perm.swap x y ys)

theorem perm_insertionSort (le : α → α → Bool) (l : List α) :
    (insertionSort le l).Perm l := by
  induction l with
  | nil => simp [insertionSort]
  | cons x xs ih =>
    rw [insertionSort]
    exact (perm_insertSorted le x (insertionSort le xs)).trans (ih.cons x)

theorem mem_insertionSort (le : α → α → Bool) (a : α) (l : List α) :
    a ∈ insertionSort le l ↔ a ∈ l :=
  (perm_insertionSort le l).mem_iff

theorem mem_insertSorted (le : α → α → Bool) (a x : α) (l : List α) :
    a ∈ insertSorted le x l ↔ a = x ∨ a ∈ l := by
  rw [(perm_insertSorted le x l).mem_iff]; simp

theorem pairwise_insertSorted (le : α → α → Bool)
    (htot : ∀ a b, le a b = true ∨ le b a = true)
    (htr : ∀ a b c, le a b = true → le b c = true → le a c = true)
    (x : α) (l : List α) (h : l.Pairwise (fun a b => le a b = true)) :
    (insertSorted le x l).Pairwise (fun a b => le a b = true) := by
  induction l with
  | nil => simp [insertSorted]
  | cons y ys ih =>
    rw [List.pairwise_cons] at h
    rw [insertSorted]
    by_cases hxy : le x y = true
    · rw [if_pos hxy, List.pairwise_cons]
      refine ⟨fun z hz => ?_, List.pairwise_cons.mpr h⟩
      rcases List.mem_cons.mp hz with rfl | hz
      · exact hxy
      · exact htr x y z hxy (h.1 z hz)
    · rw [if_neg hxy, List.pairwise_cons]
      refine ⟨fun z hz => ?_, ih h.2⟩
      rcases (mem_insertSorted le z x ys).mp hz with rfl | hz
      · rcases htot z y with hc | hc
        · exact absurd hc hxy
        · exact hc
      · exact h.1 z hz

theorem pairwise_insertionSort (le : α → α → Bool)
    (htot : ∀ a b, le a b = true ∨ le b a = true)
    (htr : ∀ a b c, le a b = true → le b c = true → le a c = true)
    (l : List α) :
    (insertionSort le l).Pairwise (fun a b => le a b = true) := by
  induction l with
  | nil => simp [insertionSort]
  | cons x xs ih =>
    rw [insertionSort]
    exact pairwise_insertSorted le htot htr x (insertionSort le xs) ih

/-! ### Lemmas about the byte-wise string order -/

theorem strLeChars_total : ∀ as bs, strLeChars as bs = true ∨ strLeChars bs as = true := by
  intro as
  induction as with
  | nil => intro bs; left; cases bs <;> rfl
  | cons a as ih =>
    intro bs
    cases bs with
    | nil => right; rfl
    | cons b bs =>
      by_cases h1 : a.toNat < b.toNat
      · left; simp [strLeChars, h1]
      · by_cases h2 : b.toNat < a.toNat
        · right; simp [strLeChars, h1, h2]
        · rcases ih bs with h | h
          · left; simp [strLeChars, h1, h2, h]
          · right
            have h1a : ¬ b.toNat < a.toNat := h2
            have h2a : ¬ a.toNat < b.toNat := h1
            simp [strLeChars, h1a, h2a, h]

theorem strLeChars_trans :
    ∀ as bs cs, strLeChars as bs = true → strLeChars bs cs = true →
      strLeChars as cs = true := by
  intro as
  induction as with
  | nil => intro bs cs _ _; cases cs <;> simp [strLeChars]
  | cons a as ih =>
    intro bs cs h1 h2
    cases bs with
    | nil => simp [strLeChars] at h1
    | cons b bs =>
      cases cs with
      | nil => simp [strLeChars] at h2
      | cons c cs =>
        simp only [strLeChars] at h1 h2 ⊢
        by_cases hab : a.toNat < b.toNat
        · by_cases hbc : b.toNat < c.toNat
          · have hac : a.toNat < c.toNat := by omega
            simp [hac]
          · by_cases hcb : c.toNat < b.toNat
            · simp [hbc, hcb] at h2
            · have hac : a.toNat < c.toNat := by omega
              simp [hac]
        · by_cases hba : b.toNat < a.toNat
          · simp [hab, hba] at h1
          · rw [if_neg hab, if_neg hba] at h1
            by_cases hbc : b.toNat < c.toNat
            · have hac : a.toNat < c.toNat := by omega
              simp [hac]
            · by_cases hcb : c.toNat < b.toNat
              · simp [hbc, hcb] at h2
              · rw [if_neg hbc, if_neg hcb] at h2
                have hac1 : ¬ a.toNat < c.toNat := by omega
                have hac2 : ¬ c.toNat < a.toNat := by omega
                rw [if_neg hac1, if_neg hac2]
                exact ih bs cs h1 h2

theorem strLtChars_of_le_ne :
    ∀ as bs, strLeChars as bs = true → as ≠ bs → strLtChars as bs = true := by
  intro as
  induction as with
  | nil =>
    intro bs _ hne
    cases bs with
    | nil => exact absurd rfl hne
    | cons b bs => rfl
  | cons a as ih =>
    intro bs hle hne
    cases bs with
    | nil => simp [strLeChars] at hle
    | cons b bs =>
      simp only [strLeChars] at hle
      simp only [strLtChars]
      by_cases h1 : a.toNat < b.toNat
      · simp [h1]
      · by_cases h2 : b.toNat < a.toNat
        · simp [h1, h2] at hle
        · have hnat : a.toNat = b.toNat := by omega
          have hab : a = b := by
            apply Char.eq_of_val_eq
            apply UInt32.eq_of_val_eq
            apply Fin.eq_of_val_eq
            exact hnat
          rw [if_neg h1, if_neg h2]
          rw [if_neg h1, if_neg h2] at hle
          refine ih bs hle (fun heq => hne ?_)
          rw [hab, heq]

theorem strLeB_total (a b : String) : strLeB a b = true ∨ strLeB b a = true :=
  strLeChars_total a.data b.data

theorem strLeB_trans (a b c : String) :
    strLeB a b = true → strLeB b c = true → strLeB a c = true :=
  strLeChars_trans a.data b.data c.data

theorem strLtB_of_le_ne (a b : String) (hle : strLeB a b = true) (hne : a ≠ b) :
    strLtB a b = true := by
  refine strLtChars_of_le_ne a.data b.data hle (fun h => hne ?_)
  cases a; cases b; exact congrArg String.mk h

/-! ### Claim C1 — Report Runner query failure aborts the run (code bug) -/

/-- C1: the claimed per-query isolation does not hold of the code.  With the
CHICAGO_CRIME_DATA table absent, query 1 fails inside `pd.read_sql_query`
with a `pandas.errors.DatabaseError`, which the `except Error`
(`sqlite3.Error`) clause of `execute_query` does not catch; the exception
propagates, the run aborts, and queries 2 through 10 never execute.  By
contrast, a run in which every query succeeds yields all ten results. -/
theorem report_runner_failure_aborts :
    run_analysis dbNoCrime =
      Except.error (PyExc.databaseError "no such table: CHICAGO_CRIME_DATA") ∧
    run_analysis dbEmptyTables =
      Except.ok [some [[SVal.num 0]], some [], some [], some [], some [],
        some [], some [], some [], some [], some []] := by
  constructor
  · rfl
  · with_unfolding_all rfl

/-! ### Claim C2 — income segmentation partitions the enriched records -/

/-- C2: for every record of the enriched crime dataset and every integer
threshold, the income segment is Unknown iff `per_capita_income` is NULL;
on a non-NULL income it is Low iff the income is at most the threshold and
High iff it exceeds it; and every record falls in one of the three segments. -/
theorem income_segment_partition (cs : List CensusRow) (ct : List CrimeRow)
    (t : ℤ) (e : EnrichedRow) (he : e ∈ crimeDatasetRows cs ct) :
    (income_segment e.per_capita_income t = "Unknown / Missing Income" ↔
      e.per_capita_income = none) ∧
    (∀ q, e.per_capita_income = some q →
      ((income_segment e.per_capita_income t = "Low Income Areas" ↔ q ≤ (t : ℚ)) ∧
       (income_segment e.per_capita_income t = "High Income Areas" ↔ ¬ q ≤ (t : ℚ)))) ∧
    (income_segment e.per_capita_income t = "Unknown / Missing Income" ∨
     income_segment e.per_capita_income t = "Low Income Areas" ∨
     income_segment e.per_capita_income t = "High Income Areas") := by
  clear he
  cases hpci : e.per_capita_income with
  | none =>
    refine ⟨by simp [income_segment], ?_, Or.inl (by simp [income_segment])⟩
    intro q hq
    exact absurd hq (by simp)
  | some q =>
    refine ⟨?_, ?_, ?_⟩
    · simp only [income_segment]
      by_cases hq : q ≤ (t : ℚ)
      · rw [if_pos hq]; simp
      · rw [if_neg hq]; simp
    · intro q2 hq2
      injection hq2 with h
      subst h
      simp only [income_segment]
      by_cases hq : q ≤ (t : ℚ)
      · rw [if_pos hq]
        exact ⟨by simp [hq], by simp [hq]⟩
      · rw [if_neg hq]
        exact ⟨by simp [hq], by simp [hq]⟩
    · simp only [income_segment]
      by_cases hq : q ≤ (t : ℚ)
      · rw [if_pos hq]; right; left; rfl
      · rw [if_neg hq]; right; right; rfl

/-- C2 witness: the enriched record of `crimeOne` (income 9000) at threshold
10000 satisfies the partition biconditionals. -/
theorem income_segment_partition_witness :
    rowIncome ∈ crimeDatasetRows [censusIncome] [crimeOne] ∧
    ((income_segment rowIncome.per_capita_income 10000 = "Unknown / Missing Income" ↔
      rowIncome.per_capita_income = none) ∧
    (∀ q, rowIncome.per_capita_income = some q →
      ((income_segment rowIncome.per_capita_income 10000 = "Low Income Areas" ↔
          q ≤ ((10000 : ℤ) : ℚ)) ∧
       (income_segment rowIncome.per_capita_income 10000 = "High Income Areas" ↔
          ¬ q ≤ ((10000 : ℤ) : ℚ)))) ∧
    (income_segment rowIncome.per_capita_income 10000 = "Unknown / Missing Income" ∨
     income_segment rowIncome.per_capita_income 10000 = "Low Income Areas" ∨
     income_segment rowIncome.per_capita_income 10000 = "High Income Areas")) :=
  ⟨by
    rw [show crimeDatasetRows [censusIncome] [crimeOne] = [rowIncome] from by
      with_unfolding_all rfl]
    exact List.mem_singleton.mpr rfl,
   income_segment_partition [censusIncome] [crimeOne] 10000 rowIncome
     (by
      rw [show crimeDatasetRows [censusIncome] [crimeOne] = [rowIncome] from by
        with_unfolding_all rfl]
      exact List.mem_singleton.mpr rfl)⟩

/-! ### Helper lemmas about the community aggregate view -/

theorem censusKey_eq_none (c : CensusRow) :
    censusKey c = none ↔
      (c.community_area_number = none ∨
       sqlTrim ((c.community_area_name).getD "") = "") := by
  cases hq : c.community_area_number with
  | none => simp [censusKey, hq]
  | some q =>
    simp only [censusKey, hq]
    by_cases hn : sqlTrim ((c.community_area_name).getD "") = ""
    · simp [hn]
    · simp [hn]

theorem joinedRows_filter (cs : List CensusRow) (ss : List SchoolRow) :
    joinedRows (cs.filter (fun c => (censusKey c).isSome)) ss = joinedRows cs ss := by
  induction cs with
  | nil => rfl
  | cons c rest ih =>
    cases h : censusKey c with
    | none =>
      have hc : (censusKey c).isSome = false := by rw [h]; rfl
      have hjc : censusJoin ss c = [] := by rw [censusJoin, h]
      simp only [joinedRows, List.filter_cons, hc, if_false, List.flatMap_cons, hjc,
        List.nil_append, Bool.false_eq_true]
      exact ih
    | some k =>
      have hc : (censusKey c).isSome = true := by rw [h]; rfl
      simp only [joinedRows, List.filter_cons, hc, if_true, List.flatMap_cons]
      rw [show (rest.filter (fun c => (censusKey c).isSome)).flatMap (censusJoin ss) =
            joinedRows (rest.filter (fun c => (censusKey c).isSome)) ss from rfl, ih]
      rfl

theorem socio_sorted (cs : List CensusRow) (ss : List SchoolRow) :
    (socioeducationRows cs ss).Pairwise
      (fun a b => a.community_area_number ≤ b.community_area_number) := by
  rw [socioeducationRows, List.pairwise_map, socioKeys]
  have h := pairwise_insertionSort (fun a b : AggKey => decide (a.1 ≤ b.1))
    (fun a b => by
      rcases le_total a.1 b.1 with hle | hle
      · exact Or.inl (decide_eq_true hle)
      · exact Or.inr (decide_eq_true hle))
    (fun a b c hab hbc =>
      decide_eq_true (le_trans (of_decide_eq_true hab) (of_decide_eq_true hbc)))
    (dedupFirst ((joinedRows cs ss).map Prod.fst))
  exact h.imp (fun hab => of_decide_eq_true hab)

theorem mem_joined_of_censusKey (cs : List CensusRow) (ss : List SchoolRow)
    (c : CensusRow) (k : AggKey) (hc : c ∈ cs) (hk : censusKey c = some k) :
    k ∈ (joinedRows cs ss).map Prod.fst := by
  rw [List.mem_map]
  have hpair : ∃ p, p ∈ censusJoin ss c ∧ p.1 = k := by
    simp only [censusJoin, hk]
    cases hm : schoolMatches ss k.1 with
    | nil => exact ⟨(k, none), List.mem_singleton.mpr rfl, rfl⟩
    | cons s rest => exact ⟨(k, some s), by simp, rfl⟩
  obtain ⟨p, hp, hpk⟩ := hpair
  exact ⟨p, List.mem_flatMap.mpr ⟨c, hc, hp⟩, hpk⟩

theorem key_in_socioKeys (cs : List CensusRow) (ss : List SchoolRow) (k : AggKey) :
    k ∈ socioKeys cs ss ↔ k ∈ (joinedRows cs ss).map Prod.fst := by
  rw [socioKeys, mem_insertionSort, mem_dedupFirst]

theorem row_of_key (cs : List CensusRow) (ss : List SchoolRow) (k : AggKey)
    (hk : k ∈ socioKeys cs ss) :
    ∃ r, r ∈ socioeducationRows cs ss ∧ rowKey r = k := by
  refine ⟨mkAggRow (joinedRows cs ss) k, ?_, rfl⟩
  rw [socioeducationRows]
  exact List.mem_map_of_mem _ hk

theorem socioKeys_from_census (cs : List CensusRow) (ss : List SchoolRow) (k : AggKey)
    (hk : k ∈ socioKeys cs ss) :
    ∃ c, c ∈ cs ∧ censusKey c = some k := by
  rw [key_in_socioKeys] at hk
  obtain ⟨p, hp, hpk⟩ := List.mem_map.mp hk
  obtain ⟨c, hc, hcp⟩ := List.mem_flatMap.mp hp
  refine ⟨c, hc, ?_⟩
  cases hck : censusKey c with
  | none => simp only [censusJoin, hck] at hcp; simp at hcp
  | some k2 =>
    simp only [censusJoin, hck] at hcp
    have hk2 : p.1 = k2 := by
      cases hm : schoolMatches ss k2.1 with
      | nil =>
        rw [hm] at hcp
        rw [List.mem_singleton.mp hcp]
      | cons s rest =>
        rw [hm] at hcp
        obtain ⟨t, ht, heq⟩ := List.mem_map.mp hcp
        rw [← heq]
    rw [← hk2, hpk]

theorem socioKeys_nodup (cs : List CensusRow) (ss : List SchoolRow) :
    (socioKeys cs ss).Nodup := by
  rw [socioKeys]
  exact (perm_insertionSort _ _).symm.nodup
    (nodup_dedupFirst ((joinedRows cs ss).map Prod.fst))

theorem mem_groupMembers (J : List (AggKey × Option SchoolRow)) (k : AggKey)
    (p : AggKey × Option SchoolRow) :
    p ∈ groupMembers J k ↔ p ∈ J ∧ p.1 = k := by
  rw [groupMembers, List.mem_filter]
  simp

theorem joined_some_school (cs : List CensusRow) (ss : List SchoolRow)
    (k : AggKey) (s : SchoolRow) (h : (k, some s) ∈ joinedRows cs ss) :
    s ∈ ss ∧ castIntQ s.community_area_number = some k.1 := by
  obtain ⟨c, hc, hp⟩ := List.mem_flatMap.mp h
  cases hck : censusKey c with
  | none => simp only [censusJoin, hck] at hp; simp at hp
  | some k2 =>
    simp only [censusJoin, hck] at hp
    cases hm : schoolMatches ss k2.1 with
    | nil =>
      rw [hm] at hp
      have := List.mem_singleton.mp hp
      simp at this
    | cons s0 rest =>
      rw [hm] at hp
      obtain ⟨t, ht, heq⟩ := List.mem_map.mp hp
      have hk2k : k2 = k := congrArg Prod.fst heq
      have hts : t = s := Option.some.inj (congrArg Prod.snd heq)
      subst hts
      have hmem : t ∈ schoolMatches ss k2.1 := by rw [hm]; exact ht
      rw [schoolMatches] at hmem
      have hmf := List.mem_filter.mp hmem
      refine ⟨hmf.1, ?_⟩
      have h2 := of_decide_eq_true hmf.2
      rw [hk2k] at h2
      exact h2

/-! ### Claim C7 — aggregate filtering and ordering -/

/-- C7: `buildCommunityAggregate` excludes, before grouping, exactly the
census rows whose community number is NULL or whose community name is NULL or
blank (characterised by `censusKey`), and returns the groups ordered ascending
by the integer-coerced community number. -/
theorem community_aggregate_filter_and_order (cs : List CensusRow) (ss : List SchoolRow) :
    (∀ c : CensusRow, censusKey c = none ↔
      (c.community_area_number = none ∨
       sqlTrim ((c.community_area_name).getD "") = "")) ∧
    socioeducationRows (cs.filter (fun c => (censusKey c).isSome)) ss =
      socioeducationRows cs ss ∧
    (socioeducationRows cs ss).Pairwise
      (fun a b => a.community_area_number ≤ b.community_area_number) := by
  refine ⟨censusKey_eq_none, ?_, socio_sorted cs ss⟩
  simp only [socioeducationRows, socioKeys, joinedRows_filter]

/-! ### Claim C5 — one aggregate row per distinct key -/

/-- C5 counterexample: two census rows sharing the coerced identifier 1 under
different names produce two output rows with the same identifier, refuting
"no single identifier yields more than one output row" as stated. -/
theorem community_aggregate_duplicate_id_cex :
    (socioeducationRows censusDupId []).map (fun r => r.community_area_number) = [1, 1] ∧
    (socioeducationRows censusDupId []).length = 2 := by
  constructor
  · with_unfolding_all decide
  · with_unfolding_all decide

/-- C5 amended: every filtered census row is represented by an aggregate row
carrying its grouping key; rows with identical descriptive fields but
different coerced identifiers yield distinct output rows; and provided the
coerced identifier determines the whole grouping key (identifier uniqueness,
as the data model asserts), no identifier yields more than one output row. -/
theorem community_aggregate_rows_correspondence (cs : List CensusRow) (ss : List SchoolRow) :
    (∀ c ∈ cs, ∀ k, censusKey c = some k →
      ∃ r, r ∈ socioeducationRows cs ss ∧ rowKey r = k) ∧
    (∀ c1 ∈ cs, ∀ c2 ∈ cs, ∀ k1 k2, censusKey c1 = some k1 → censusKey c2 = some k2 →
      k1.2 = k2.2 → k1.1 ≠ k2.1 →
      ∃ r1 r2, r1 ∈ socioeducationRows cs ss ∧ r2 ∈ socioeducationRows cs ss ∧
        rowKey r1 = k1 ∧ rowKey r2 = k2 ∧ r1 ≠ r2) ∧
    ((∀ c1 ∈ cs, ∀ c2 ∈ cs, ∀ k1 k2, censusKey c1 = some k1 → censusKey c2 = some k2 →
        k1.1 = k2.1 → k1 = k2) →
      (socioeducationRows cs ss).Pairwise
        (fun r1 r2 => r1.community_area_number ≠ r2.community_area_number)) := by
  have hrep : ∀ c ∈ cs, ∀ k, censusKey c = some k →
      ∃ r, r ∈ socioeducationRows cs ss ∧ rowKey r = k := by
    intro c hc k hk
    exact row_of_key cs ss k
      ((key_in_socioKeys cs ss k).mpr (mem_joined_of_censusKey cs ss c k hc hk))
  refine ⟨hrep, ?_, ?_⟩
  · intro c1 hc1 c2 hc2 k1 k2 hk1 hk2 hdesc hne
    obtain ⟨r1, hr1, hrk1⟩ := hrep c1 hc1 k1 hk1
    obtain ⟨r2, hr2, hrk2⟩ := hrep c2 hc2 k2 hk2
    refine ⟨r1, r2, hr1, hr2, hrk1, hrk2, fun heq => hne ?_⟩
    have : k1 = k2 := by rw [← hrk1, ← hrk2, heq]
    rw [this]
  · intro huniq
    rw [socioeducationRows, List.pairwise_map]
    refine List.Pairwise.imp_of_mem ?_ (socioKeys_nodup cs ss)
    intro a b ha hb hne heq
    obtain ⟨c1, hc1, hk1⟩ := socioKeys_from_census cs ss a ha
    obtain ⟨c2, hc2, hk2⟩ := socioKeys_from_census cs ss b hb
    exact hne (huniq c1 hc1 c2 hc2 a b hk1 hk2 heq)

/-- C5 witness: for two census rows with distinct identifiers 2 and 1, each is
represented, the descriptive-field clause produces two distinct rows, and the
uniqueness hypothesis holds, giving pairwise-distinct identifiers. -/
theorem community_aggregate_rows_correspondence_witness :
    (∃ r, r ∈ socioeducationRows censusTwo [] ∧ rowKey r = (1, "A", none, none)) ∧
    (∃ r1 r2, r1 ∈ socioeducationRows censusSameName [] ∧
      r2 ∈ socioeducationRows censusSameName [] ∧
      rowKey r1 = (2, "A", none, none) ∧ rowKey r2 = (1, "A", none, none) ∧ r1 ≠ r2) ∧
    (socioeducationRows censusTwo []).Pairwise
      (fun r1 r2 => r1.community_area_number ≠ r2.community_area_number) := by
  have hkA : censusKey censusA = some (1, "A", none, none) := by
    with_unfolding_all rfl
  have hkA2 : censusKey censusA2 = some (2, "A", none, none) := by
    with_unfolding_all rfl
  have hkB : censusKey censusB2 = some (2, "B", none, none) := by
    with_unfolding_all rfl
  have hmA : censusA ∈ censusTwo := by rw [censusTwo]; simp
  have hmA1 : censusA ∈ censusSameName := by rw [censusSameName]; simp
  have hmA2 : censusA2 ∈ censusSameName := by rw [censusSameName]; simp
  have h := community_aggregate_rows_correspondence censusTwo []
  refine ⟨h.1 censusA hmA (1, "A", none, none) hkA, ?_, ?_⟩
  · exact (community_aggregate_rows_correspondence censusSameName []).2.1
      censusA2 hmA2 censusA hmA1 (2, "A", none, none) (1, "A", none, none)
      hkA2 hkA rfl (by decide)
  · refine h.2.2 ?_
    intro c1 hc1 c2 hc2 k1 k2 hk1 hk2 h11
    rw [censusTwo] at hc1 hc2
    rcases List.mem_cons.mp hc1 with rfl | hc1 <;>
      rcases List.mem_cons.mp hc2 with rfl | hc2
    · rw [hkB] at hk1 hk2
      rw [← Option.some.inj hk1, ← Option.some.inj hk2]
    · rw [List.mem_singleton.mp hc2] at hk2
      rw [hkB] at hk1
      rw [hkA] at hk2
      rw [← Option.some.inj hk1, ← Option.some.inj hk2] at h11
      exact absurd h11 (by decide)
    · rw [List.mem_singleton.mp hc1] at hk1
      rw [hkA] at hk1
      rw [hkB] at hk2
      rw [← Option.some.inj hk1, ← Option.some.inj hk2] at h11
      exact absurd h11 (by decide)
    · rw [List.mem_singleton.mp hc1] at hk1
      rw [List.mem_singleton.mp hc2] at hk2
      rw [hkA] at hk1 hk2
      rw [← Option.some.inj hk1, ← Option.some.inj hk2]

/-! ### Claim C3 — NULL semantics of the safety-score average -/

/-- C3 counterexample: a school row with a NULL School_ID but a non-NULL
safety score joins community 1, so `COUNT(School_ID)` is 0 while the average
safety score is 50, refuting "school_count == 0 implies avg_safety_score is
null" as stated over all database states. -/
theorem agg_school_count_zero_avg_cex :
    socioeducationRows [censusA] [schoolNullId] = [⟨1, "A", none, none, some 50, 0⟩] ∧
    (⟨1, "A", none, none, some 50, 0⟩ : AggRow).school_count = 0 ∧
    (⟨1, "A", none, none, some 50, 0⟩ : AggRow).avg_safety_score ≠ none := by
  refine ⟨by with_unfolding_all rfl, rfl, by simp⟩

/-- C3 amended: provided every school row carries a non-NULL School_ID (it is
the table key), an aggregate row with `school_count = 0` has a NULL average;
unconditionally, a community all of whose joined schools have NULL safety
scores gets a NULL (not zero) average, and the average is the arithmetic mean
of exactly the non-NULL safety scores of the group. -/
theorem agg_safety_average_null_semantics (cs : List CensusRow) (ss : List SchoolRow)
    (r : AggRow) (hr : r ∈ socioeducationRows cs ss) :
    ((∀ s ∈ ss, s.school_id.isSome = true) → r.school_count = 0 →
       r.avg_safety_score = none) ∧
    ((∀ s ∈ ss, castIntQ s.community_area_number = some r.community_area_number →
        s.safety_score = none) → r.avg_safety_score = none) ∧
    (r.avg_safety_score =
      match groupScores (joinedRows cs ss) (rowKey r) with
      | [] => none
      | q :: rest => some ((q :: rest).sum / (((q :: rest).length : ℚ)))) := by
  rw [socioeducationRows] at hr
  obtain ⟨k, hk, rfl⟩ := List.mem_map.mp hr
  refine ⟨?_, ?_, rfl⟩
  · intro hids hcount
    have hc : (groupMembers (joinedRows cs ss) k).countP (fun p =>
        match p.2 with
        | some s => s.school_id.isSome
        | none => false) = 0 := hcount
    have hmem := List.countP_eq_zero.mp hc
    have hnone : ∀ p ∈ groupMembers (joinedRows cs ss) k, p.2 = none := by
      intro p hp
      cases hp2 : p.2 with
      | none => rfl
      | some s =>
        have h1 := hmem p hp
        rw [hp2] at h1
        have hpJ := (mem_groupMembers (joinedRows cs ss) k p).mp hp
        have hps : p = (k, some s) := by
          obtain ⟨p1, p2⟩ := p
          simp only at hp2
          rw [hp2]
          rw [show p1 = k from hpJ.2]
        rw [hps] at hpJ
        have hschool := joined_some_school cs ss k s hpJ.1
        have := hids s hschool.1
        simp [this] at h1
    have hscores : groupScores (joinedRows cs ss) k = [] := by
      rw [groupScores, List.filterMap_eq_nil_iff]
      intro p hp
      rw [hnone p hp]
    show (mkAggRow (joinedRows cs ss) k).avg_safety_score = none
    simp only [mkAggRow, hscores]
  · intro hnull
    have hscores : groupScores (joinedRows cs ss) k = [] := by
      rw [groupScores, List.filterMap_eq_nil_iff]
      intro p hp
      cases hp2 : p.2 with
      | none => rfl
      | some s =>
        have hpJ := (mem_groupMembers (joinedRows cs ss) k p).mp hp
        have hps : p = (k, some s) := by
          obtain ⟨p1, p2⟩ := p
          simp only at hp2
          rw [hp2]
          rw [show p1 = k from hpJ.2]
        rw [hps] at hpJ
        have hschool := joined_some_school cs ss k s hpJ.1
        have hs0 := hnull s hschool.1 hschool.2
        simp [hs0]
    show (mkAggRow (joinedRows cs ss) k).avg_safety_score = none
    simp only [mkAggRow, hscores]

/-- C3 witness: community 1 with the single school `schoolSeven` (non-NULL id,
safety 50) produces a row with count 1 and average 50, and the amended
implications hold for it. -/
theorem agg_safety_average_null_semantics_witness :
    (⟨1, "A", none, none, some 50, 1⟩ : AggRow) ∈ socioeducationRows [censusA] [schoolSeven] ∧
    (((∀ s ∈ [schoolSeven], s.school_id.isSome = true) →
        (⟨1, "A", none, none, some 50, 1⟩ : AggRow).school_count = 0 →
        (⟨1, "A", none, none, some 50, 1⟩ : AggRow).avg_safety_score = none) ∧
     ((∀ s ∈ [schoolSeven], castIntQ s.community_area_number =
          some (⟨1, "A", none, none, some 50, 1⟩ : AggRow).community_area_number →
        s.safety_score = none) →
        (⟨1, "A", none, none, some 50, 1⟩ : AggRow).avg_safety_score = none) ∧
     ((⟨1, "A", none, none, some 50, 1⟩ : AggRow).avg_safety_score =
        match groupScores (joinedRows [censusA] [schoolSeven])
            (rowKey (⟨1, "A", none, none, some 50, 1⟩ : AggRow)) with
        | [] => none
        | q :: rest => some ((q :: rest).sum / (((q :: rest).length : ℚ))))) := by
  have hmem : (⟨1, "A", none, none, some 50, 1⟩ : AggRow) ∈
      socioeducationRows [censusA] [schoolSeven] := by
    rw [show socioeducationRows [censusA] [schoolSeven] =
        [⟨1, "A", none, none, some 50, 1⟩] from by with_unfolding_all rfl]
    exact List.mem_singleton.mpr rfl
  exact ⟨hmem, agg_safety_average_null_semantics [censusA] [schoolSeven] _ hmem⟩

/-! ### Claim C4 — hard filter, soft join and sentinels of the enriched view -/

/-- C4: the enriched crime view drops exactly the crime rows whose raw
community number is NULL, keeps every row with a non-NULL number even when
unmatched (producing the "Unknown" community-name sentinel with NULL numeric
enrichment), and substitutes the sentinels "N/A", "UNKNOWN" and
"No description" for missing categorical fields. -/
theorem enriched_crime_join_semantics (cs : List CensusRow) (r : CrimeRow) :
    (∀ ct : List CrimeRow, crimeDatasetRows cs ct = ct.flatMap (enrichRow cs)) ∧
    (r.community_area_number = none → enrichRow cs r = []) ∧
    (∀ q, r.community_area_number = some q →
      (enrichRow cs r ≠ [] ∧
       ((∀ c ∈ cs, castIntQ c.community_area_number ≠ some (truncToInt q)) →
          enrichRow cs r =
            [{ crime_id := r.id
               case_number := r.case_number.getD "N/A"
               primary_type := r.primary_type.getD "UNKNOWN"
               description := r.description.getD "No description"
               community_area_number := truncToInt q
               community_area_name := "Unknown"
               per_capita_income := none
               poverty_rate := none
               hardship_index := none
               crime_year := r.year }]) ∧
       (∀ e ∈ enrichRow cs r,
          e.case_number = r.case_number.getD "N/A" ∧
          e.primary_type = r.primary_type.getD "UNKNOWN" ∧
          e.description = r.description.getD "No description"))) := by
  refine ⟨fun ct => rfl, ?_, ?_⟩
  · intro h
    simp [enrichRow, h]
  · intro q hq
    refine ⟨?_, ?_, ?_⟩
    · simp only [enrichRow, hq]
      cases hm : censusMatches cs (truncToInt q) with
      | nil => simp
      | cons c rest => simp
    · intro hnone
      have hm : censusMatches cs (truncToInt q) = [] := by
        rw [censusMatches, List.filter_eq_nil_iff]
        intro c hc
        simpa using hnone c hc
      simp [enrichRow, hq, hm]
    · intro e he
      simp only [enrichRow, hq] at he
      cases hm : censusMatches cs (truncToInt q) with
      | nil =>
        rw [hm] at he
        rw [List.mem_singleton.mp he]
        exact ⟨rfl, rfl, rfl⟩
      | cons c rest =>
        rw [hm] at he
        obtain ⟨c2, hc2, heq⟩ := List.mem_map.mp he
        rw [← heq]
        exact ⟨rfl, rfl, rfl⟩

/-- C4 witness: the crime row `crimeFive` (community 5, all categorical fields
NULL) joined against an empty census table is retained as exactly the
sentinel row. -/
theorem enriched_crime_join_semantics_witness :
    crimeFive.community_area_number = some 5 ∧
    (enrichRow [] crimeFive ≠ [] ∧
     ((∀ c ∈ ([] : List CensusRow),
         castIntQ c.community_area_number ≠ some (truncToInt 5)) →
        enrichRow [] crimeFive =
          [{ crime_id := crimeFive.id
             case_number := crimeFive.case_number.getD "N/A"
             primary_type := crimeFive.primary_type.getD "UNKNOWN"
             description := crimeFive.description.getD "No description"
             community_area_number := truncToInt 5
             community_area_name := "Unknown"
             per_capita_income := none
             poverty_rate := none
             hardship_index := none
             crime_year := crimeFive.year }]) ∧
     (∀ e ∈ enrichRow [] crimeFive,
        e.case_number = crimeFive.case_number.getD "N/A" ∧
        e.primary_type = crimeFive.primary_type.getD "UNKNOWN" ∧
        e.description = crimeFive.description.getD "No description")) :=
  ⟨rfl, (enriched_crime_join_semantics [] crimeFive).2.2 5 rfl⟩

/-! ### Claim C9 — extreme thresholds classify all known-income records -/

/-- C9: a threshold at least every non-NULL per-capita income classifies every
known-income enriched record as Low, and a threshold strictly below every
non-NULL income classifies every known-income record as High. -/
theorem threshold_extremes_classify (cs : List CensusRow) (ct : List CrimeRow) (t : ℤ) :
    ((∀ e ∈ crimeDatasetRows cs ct, ∀ q, e.per_capita_income = some q → q ≤ (t : ℚ)) →
      ∀ e ∈ crimeDatasetRows cs ct, ∀ q, e.per_capita_income = some q →
        income_segment e.per_capita_income t = "Low Income Areas") ∧
    ((∀ e ∈ crimeDatasetRows cs ct, ∀ q, e.per_capita_income = some q → (t : ℚ) < q) →
      ∀ e ∈ crimeDatasetRows cs ct, ∀ q, e.per_capita_income = some q →
        income_segment e.per_capita_income t = "High Income Areas") := by
  constructor
  · intro hall e he q hq
    simp only [hq, income_segment]
    rw [if_pos (hall e he q hq)]
  · intro hall e he q hq
    simp only [hq, income_segment]
    rw [if_neg (not_le.mpr (hall e he q hq))]

/-- C9 witness: for the single enriched record of income 9000, threshold
10000 yields Low for every known-income record and threshold 5000 yields
High. -/
theorem threshold_extremes_classify_witness :
    (∀ e ∈ crimeDatasetRows [censusIncome] [crimeOne], ∀ q,
       e.per_capita_income = some q →
       income_segment e.per_capita_income 10000 = "Low Income Areas") ∧
    (∀ e ∈ crimeDatasetRows [censusIncome] [crimeOne], ∀ q,
       e.per_capita_income = some q →
       income_segment e.per_capita_income 5000 = "High Income Areas") := by
  have hds : crimeDatasetRows [censusIncome] [crimeOne] = [rowIncome] := by
    with_unfolding_all rfl
  constructor
  · refine (threshold_extremes_classify [censusIncome] [crimeOne] 10000).1 ?_
    intro e he q hq
    rw [hds] at he
    rw [List.mem_singleton.mp he] at hq
    have : q = 9000 := by
      have := Option.some.inj hq
      rw [← this]
    rw [this]
    with_unfolding_all decide
  · refine (threshold_extremes_classify [censusIncome] [crimeOne] 5000).2 ?_
    intro e he q hq
    rw [hds] at he
    rw [List.mem_singleton.mp he] at hq
    have : q = 9000 := by
      have := Option.some.inj hq
      rw [← this]
    rw [this]
    with_unfolding_all decide

/-! ### Claim C6 — top-n ranking by frequency -/

/-- C6 counterexample: with the tied input ["B", "A"], the dashboard returns
["A", "B"] (groupby sorts the keys ascending before the count sort), not the
first-encountered order ["B", "A"] the claim asserts for ties. -/
theorem topN_tie_break_cex :
    topNByFrequency ["B", "A"] 2 = ["A", "B"] ∧
    topNByFrequency ["B", "A"] 2 ≠ ["B", "A"] := by
  exact ⟨by decide, by decide⟩

theorem pairwise_insertSorted_cnt (x : String × ℕ) (l : List (String × ℕ))
    (hR : l.Pairwise (fun a b => b.2 < a.2 ∨ (b.2 = a.2 ∧ strLtB a.1 b.1 = true)))
    (halpha : ∀ z ∈ l, strLtB x.1 z.1 = true) :
    (insertSorted cntDescLe x l).Pairwise
      (fun a b => b.2 < a.2 ∨ (b.2 = a.2 ∧ strLtB a.1 b.1 = true)) := by
  induction l with
  | nil => simp [insertSorted]
  | cons y ys ih =>
    rw [List.pairwise_cons] at hR
    rw [insertSorted]
    by_cases hxy : cntDescLe x y = true
    · rw [if_pos hxy, List.pairwise_cons]
      have hyx : y.2 ≤ x.2 := of_decide_eq_true hxy
      refine ⟨fun z hz => ?_, List.pairwise_cons.mpr hR⟩
      rcases List.mem_cons.mp hz with rfl | hz
      · rcases lt_or_eq_of_le hyx with h | h
        · exact Or.inl h
        · exact Or.inr ⟨h, halpha z (List.mem_cons_self z ys)⟩
      · have hzy : z.2 ≤ y.2 := by
          rcases hR.1 z hz with h | h
          · exact le_of_lt h
          · exact le_of_eq h.1
        rcases lt_or_eq_of_le (le_trans hzy hyx) with h | h
        · exact Or.inl h
        · exact Or.inr ⟨h, halpha z (List.mem_cons_of_mem y hz)⟩
    · rw [if_neg hxy, List.pairwise_cons]
      have hxy2 : x.2 < y.2 := by
        have hn : ¬ y.2 ≤ x.2 := fun h => hxy (decide_eq_true h)
        exact not_le.mp hn
      refine ⟨fun z hz => ?_,
        ih hR.2 (fun z hz => halpha z (List.mem_cons_of_mem y hz))⟩
      rcases (mem_insertSorted cntDescLe z x ys).mp hz with rfl | hz
      · exact Or.inl hxy2
      · exact hR.1 z hz

theorem pairwise_insertionSort_cnt (l : List (String × ℕ))
    (halpha : l.Pairwise (fun a b => strLtB a.1 b.1 = true)) :
    (insertionSort cntDescLe l).Pairwise
      (fun a b => b.2 < a.2 ∨ (b.2 = a.2 ∧ strLtB a.1 b.1 = true)) := by
  induction l with
  | nil => simp [insertionSort]
  | cons x xs ih =>
    rw [List.pairwise_cons] at halpha
    rw [insertionSort]
    refine pairwise_insertSorted_cnt x _ (ih halpha.2) ?_
    intro z hz
    exact halpha.1 z ((mem_insertionSort cntDescLe z xs).mp hz)

/-- C6 amended: `topNByFrequency` returns at most n values, ordered by
strictly descending frequency with ties broken by ascending byte-wise value
order (the pandas groupby key order) rather than first-encountered order, and
the frequency of every returned value is at least the frequency of every
excluded value. -/
theorem topN_frequency_ranking (vals : List String) (n : ℕ) :
    (topNByFrequency vals n).length ≤ n ∧
    (topNByFrequency vals n).Pairwise (fun a b =>
      vals.count b < vals.count a ∨
      (vals.count b = vals.count a ∧ strLtB a b = true)) ∧
    (∀ t ∈ topNByFrequency vals n, ∀ u, u ∈ vals → u ∉ topNByFrequency vals n →
      vals.count u ≤ vals.count t) := by
  have htypesle : (insertionSort strLeB (dedupFirst vals)).Pairwise
      (fun a b => strLeB a b = true) :=
    pairwise_insertionSort strLeB strLeB_total strLeB_trans (dedupFirst vals)
  have htypesnd : (insertionSort strLeB (dedupFirst vals)).Nodup :=
    (perm_insertionSort strLeB (dedupFirst vals)).symm.nodup (nodup_dedupFirst vals)
  have htypeslt : (insertionSort strLeB (dedupFirst vals)).Pairwise
      (fun a b => strLtB a b = true) :=
    (htypesle.and htypesnd).imp (fun hab => strLtB_of_le_ne _ _ hab.1 hab.2)
  have htotalsalpha : ((insertionSort strLeB (dedupFirst vals)).map
      (fun t => (t, vals.count t))).Pairwise (fun a b => strLtB a.1 b.1 = true) := by
    rw [List.pairwise_map]
    exact htypeslt
  have hsorted := pairwise_insertionSort_cnt _ htotalsalpha
  have hinv : ∀ p ∈ insertionSort cntDescLe
      ((insertionSort strLeB (dedupFirst vals)).map (fun t => (t, vals.count t))),
      p.2 = vals.count p.1 := by
    intro p hp
    have hp2 := (perm_insertionSort cntDescLe _).mem_iff.mp hp
    obtain ⟨t, ht, heq⟩ := List.mem_map.mp hp2
    rw [← heq]
  refine ⟨?_, ?_, ?_⟩
  · simp only [topNByFrequency, List.length_map, List.length_take]
    exact min_le_left _ _
  · simp only [topNByFrequency]
    rw [List.pairwise_map]
    have htake := List.Pairwise.sublist (List.take_sublist n _) hsorted
    refine List.Pairwise.imp_of_mem ?_ htake
    intro p q hp hq hR
    have hp2 := hinv p ((List.take_sublist n _).subset hp)
    have hq2 := hinv q ((List.take_sublist n _).subset hq)
    rw [hp2, hq2] at hR
    exact hR
  · intro t ht u hu hnot
    have hut : u ∈ insertionSort strLeB (dedupFirst vals) :=
      (mem_insertionSort strLeB u _).mpr ((mem_dedupFirst u vals).mpr hu)
    have hupair : (u, vals.count u) ∈ (insertionSort strLeB (dedupFirst vals)).map
        (fun t => (t, vals.count t)) :=
      List.mem_map_of_mem _ hut
    have husort : (u, vals.count u) ∈ insertionSort cntDescLe
        ((insertionSort strLeB (dedupFirst vals)).map (fun t => (t, vals.count t))) :=
      (perm_insertionSort cntDescLe _).mem_iff.mpr hupair
    have hsplit := List.take_append_drop n (insertionSort cntDescLe
      ((insertionSort strLeB (dedupFirst vals)).map (fun t => (t, vals.count t))))
    have hmem2 := List.mem_append.mp (by rw [hsplit]; exact husort :
      (u, vals.count u) ∈ (insertionSort cntDescLe
        ((insertionSort strLeB (dedupFirst vals)).map
          (fun t => (t, vals.count t)))).take n ++
        (insertionSort cntDescLe ((insertionSort strLeB (dedupFirst vals)).map
          (fun t => (t, vals.count t)))).drop n)
    rcases hmem2 with h | h
    · exact absurd
        (by simp only [topNByFrequency]; exact List.mem_map_of_mem Prod.fst h) hnot
    · obtain ⟨p, hp, hpt⟩ := List.mem_map.mp
        (show t ∈ ((insertionSort cntDescLe ((insertionSort strLeB (dedupFirst vals)).map
          (fun t => (t, vals.count t)))).take n).map Prod.fst from ht)
      have hcross := (List.pairwise_append.mp (by rw [hsplit]; exact hsorted)).2.2
      have hR := hcross p hp (u, vals.count u) h
      have hp2 : p.2 = vals.count p.1 := hinv p ((List.take_sublist n _).subset hp)
      rcases hR with hlt | heq
      · rw [hp2, hpt] at hlt
        exact le_of_lt hlt
      · rw [hp2, hpt] at heq
        exact le_of_eq heq.1

/-- C6 witness: for the input ["A", "B", "B"] with n = 1 the single returned
value "B" has frequency at least that of the excluded value "A". -/
theorem topN_frequency_ranking_witness :
    "B" ∈ topNByFrequency ["A", "B", "B"] 1 ∧
    "A" ∈ (["A", "B", "B"] : List String) ∧
    "A" ∉ topNByFrequency ["A", "B", "B"] 1 ∧
    (["A", "B", "B"] : List String).count "A" ≤ (["A", "B", "B"] : List String).count "B" :=
  ⟨by decide, by decide, by decide,
   (topN_frequency_ranking ["A", "B", "B"] 1).2.2 "B" (by decide) "A" (by decide) (by decide)⟩

/-! ### Claim C8 — View Builder behaviour on empty and absent tables -/

/-- C8 counterexample: with the joined CHICAGO_PUBLIC_SCHOOLS table present
but empty, `load_socioeducation_dataset` still returns a non-empty result
(the LEFT JOIN keeps census rows), and with CENSUS_DATA absent the caught
query failure is followed by a coercion error raised to the caller — both
refuting "absent or empty table implies an empty sequence is returned and
nothing is raised" as stated. -/
theorem view_builder_empty_table_cex :
    load_socioeducation_dataset ⟨some [censusA], some [], some []⟩ =
      Except.ok [⟨1, "A", none, none, none, 0⟩] ∧
    ([⟨1, "A", none, none, none, 0⟩] : List AggRow) ≠ [] ∧
    load_socioeducation_dataset dbNoCensus =
      Except.error "KeyError: community_area_number" := by
  refine ⟨by with_unfolding_all rfl, by simp, rfl⟩

/-- C8 amended: when the driving (FROM) base table is present but empty, each
View Builder call returns an empty sequence; emptiness of a joined table does
not force an empty result; and when any referenced base table is absent, the
caught query failure yields an empty column-less frame whose numeric coercion
raises a missing-column error to the caller instead of returning. -/
theorem view_builder_empty_and_absent (st : Storage) (cs : List CensusRow)
    (ss : List SchoolRow) :
    (st.census = some [] → st.schools = some ss →
      load_socioeducation_dataset st = Except.ok []) ∧
    (st.crime = some [] → st.census = some cs →
      load_crime_dataset st = Except.ok []) ∧
    ((st.census = none ∨ st.schools = none) →
      load_socioeducation_dataset st = Except.error "KeyError: community_area_number") ∧
    ((st.crime = none ∨ st.census = none) →
      load_crime_dataset st = Except.error "KeyError: community_area_number") := by
  obtain ⟨c0, s0, r0⟩ := st
  refine ⟨?_, ?_, ?_, ?_⟩
  · rintro rfl rfl
    rfl
  · rintro rfl rfl
    rfl
  · rintro (rfl | rfl)
    · rfl
    · cases c0 <;> rfl
  · rintro (rfl | rfl)
    · rfl
    · cases r0 <;> rfl

/-- C8 witness: instances of the amended behaviour on concrete storages with
empty tables, a missing CENSUS_DATA table and a missing CHICAGO_CRIME_DATA
table. -/
theorem view_builder_empty_and_absent_witness :
    load_socioeducation_dataset dbEmptyTables = Except.ok [] ∧
    load_crime_dataset dbEmptyTables = Except.ok [] ∧
    load_socioeducation_dataset dbNoCensus =
      Except.error "KeyError: community_area_number" ∧
    load_crime_dataset dbNoCrime = Except.error "KeyError: community_area_number" :=
  ⟨(view_builder_empty_and_absent dbEmptyTables [] []).1 rfl rfl,
   (view_builder_empty_and_absent dbEmptyTables [] []).2.1 rfl rfl,
   (view_builder_empty_and_absent dbNoCensus [] []).2.2.1 (Or.inl rfl),
   (view_builder_empty_and_absent dbNoCrime [] []).2.2.2 (Or.inl rfl)⟩

/-! ### Claim C10 — consistency of Problems 8 and 10 -/

/-- C10: whenever both queries succeed, the names returned by Problem 10 are
exactly the CENSUS_DATA names whose community number equals the number
returned by Problem 8, both being derived from the same grouped count over
non-NULL crime community numbers; when Problem 8 returns no row, Problem 10
returns no row. -/
theorem problem8_problem10_consistency (st : Storage) (cs : List CensusRow)
    (ct : List CrimeRow) (h1 : st.census = some cs) (h2 : st.crime = some ct) :
    (∀ m c, query8 st = Except.ok [[SVal.num m, SVal.num c]] →
      query10 st = Except.ok
        ((cs.filter (fun r => decide (r.community_area_number = some m))).map
          (fun r => [optStrVal r.community_area_name]))) ∧
    (query8 st = Except.ok [] → query10 st = Except.ok []) := by
  constructor
  · intro m c h8
    simp only [query8, h2] at h8
    simp only [query10, h1, h2]
    cases hL : (crimeAreaCounts ct).take 1 with
    | nil =>
      rw [hL] at h8
      simp at h8
    | cons p rest =>
      have hrest : rest = [] := by
        have hlen : (1 : ℕ) ⊓ (crimeAreaCounts ct).length = rest.length + 1 := by
          rw [← List.length_take, hL]
          rfl
        have : rest.length = 0 := by omega
        exact List.length_eq_zero.mp this
      subst hrest
      rw [hL] at h8
      simp only [List.map_cons, List.map_nil, Except.ok.injEq, List.cons.injEq,
        SVal.num.injEq, and_true] at h8
      refine congrArg Except.ok ?_
      show (cs.filter (fun r => decide (r.community_area_number = some p.1))).map
          (fun r => [optStrVal r.community_area_name]) =
        (cs.filter (fun r => decide (r.community_area_number = some m))).map
          (fun r => [optStrVal r.community_area_name])
      rw [h8.1]
  · intro h8
    simp only [query8, h2] at h8
    simp only [query10, h1, h2]
    cases hL : (crimeAreaCounts ct).take 1 with
    | nil => rfl
    | cons p rest =>
      rw [hL] at h8
      simp at h8

/-- C10 witness: on a storage whose most crime-prone area is 5 with one
crime, Problem 10 returns exactly the census names of area 5. -/
theorem problem8_problem10_consistency_witness :
    query8 dbC10 = Except.ok [[SVal.num 5, SVal.num 1]] ∧
    query10 dbC10 = Except.ok
      ((censusXY.filter (fun r => decide (r.community_area_number = some 5))).map
        (fun r => [optStrVal r.community_area_name])) :=
  ⟨by with_unfolding_all rfl,
   (problem8_problem10_consistency dbC10 censusXY [crimeFive] rfl rfl).1 5 1
     (by with_unfolding_all rfl)⟩

end Chicago
